import Mathlib

/-!
Shallow embedding of `src/ui/overview.rs` (kdash Overview screen renderer).

Conventions of the embedding:
* Rust `f64` metric values are modelled as exact rationals (`ℚ`); the numeric
  logic of the file (sum, mean, division by 100, upper clamp) is exact on the
  values of interest, and NaN/rounding of IEEE doubles is outside the model.
* `u16` coordinates are modelled as `Nat` together with explicit `% 65536`
  where the source performs `as u16` casts or `u16` additions.
* The drawing toolkit (`tui`) is an out-of-scope collaborator: a `Frame`
  accumulates the draw instructions issued by the core in call order, plus the
  one cursor-placement effect (`set_cursor`).
* Helpers that live in this repository but outside the provided source
  (`ui/utils.rs`, `app/*`, `resource_tabs.rs`) are modelled from the spec; each
  such definition carries a `Modelled from the spec:` doc comment.
-/

set_option autoImplicit false

namespace KDash

/-- `tui::layout::Rect` (u16 fields, modelled as `Nat`). -/
structure Rect where
  x : Nat
  y : Nat
  width : Nat
  height : Nat
  deriving Repr, DecidableEq, Inhabited

/-- `tui::layout::Constraint` (only the variants used by this file). -/
inductive Constraint where
  | length (n : Nat)
  | min (n : Nat)
  | percentage (p : Nat)
  deriving Repr, DecidableEq

/-- Semantic styles. The source selects each style via a `ui/utils.rs` helper
taking the light-theme flag; the helper bodies are outside the provided source,
so a style value is modelled as its selector applied to the flag it receives. -/
inductive Style where
  | styleDefault (light : Bool)
  | primary (light : Bool)
  | secondary (light : Bool)
  | failure (light : Bool)
  | logo (light : Bool)
  | highlight
  deriving Repr, DecidableEq

/-- Modelled from the spec: `ui/utils.rs` style selector (default text style). -/
def style_default (light : Bool) : Style := Style.styleDefault light

/-- Modelled from the spec: `ui/utils.rs` style selector (primary data style). -/
def style_primary (light : Bool) : Style := Style.primary light

/-- Modelled from the spec: `ui/utils.rs` style selector (secondary/active style). -/
def style_secondary (light : Bool) : Style := Style.secondary light

/-- Modelled from the spec: `ui/utils.rs` style selector (failure style). -/
def style_failure (light : Bool) : Style := Style.failure light

/-- Modelled from the spec: `ui/utils.rs` style selector (logo style). -/
def style_logo (light : Bool) : Style := Style.logo light

/-- Modelled from the spec: `ui/utils.rs` highlight style (no theme argument at
the call site in the source). -/
def style_highlight : Style := Style.highlight

/-- Gauge line set selected from the enhanced-graphics capability flag. -/
inductive LineSet where
  | normal
  | thick
  deriving Repr, DecidableEq

/-- Modelled from the spec: `ui/utils.rs` gauge style — "single-line vs
double-line rendering is selected from an external enhanced-graphics flag". -/
def get_gauge_style (enhanced_graphics : Bool) : LineSet :=
  if enhanced_graphics then LineSet.thick else LineSet.normal

/-- A bordered block (`tui::widgets::Block`): title, borders, optional style. -/
structure BlockW where
  title : Option String
  borders : Bool
  style : Option Style
  deriving Repr, DecidableEq

/-- Modelled from the spec: `ui/utils.rs::layout_block_default` — a bordered box
with the given title and default (unset) border style. -/
def layout_block_default (title : String) : BlockW :=
  { title := some title, borders := true, style := none }

/-- `Block::style` builder: sets the style of a block. -/
def BlockW.withStyle (b : BlockW) (s : Style) : BlockW :=
  { b with style := some s }

/-- A styled span of text (`tui::text::Span`); `none` style means unstyled. -/
structure SpanW where
  content : String
  style : Option Style
  deriving Repr, DecidableEq

/-- A table row (`tui::widgets::Row`): cell texts plus the row style. -/
structure RowW where
  cells : List String
  style : Style
  deriving Repr, DecidableEq

/-- Modelled from the spec: `ui/utils.rs::table_header_style` — a styled header
row built from the given cell texts and the light-theme flag. -/
structure HeaderW where
  cells : List String
  light : Bool
  deriving Repr, DecidableEq

def table_header_style (cells : List String) (light : Bool) : HeaderW :=
  { cells := cells, light := light }

/-- The draw instructions the core can issue against the drawing surface. -/
inductive Widget where
  | block (b : BlockW)
  | paragraph (text : List (List SpanW)) (patchedStyle : Option Style) (block : Option BlockW)
  | table (rows : List RowW) (header : Option HeaderW) (block : BlockW)
      (widths : List Constraint) (withHighlight : Bool)
  | lineGauge (title : String) (gaugeStyle : Style) (lineSet : LineSet)
      (ratio : ℚ) (label : Int)
  | loadingPlaceholder (block : BlockW) (isLoading : Bool) (lightTheme : Bool)
  | resourceTabs
  deriving Repr, DecidableEq

/-- The abstract drawing surface: draw instructions in call order plus the
cursor position (the one side effect beyond drawing). -/
structure Frame where
  cmds : List (Widget × Rect)
  cursor : Option (Nat × Nat)
  deriving Repr, DecidableEq

def Frame.empty : Frame := { cmds := [], cursor := none }

/-- `Frame::render_widget`: records one draw instruction. -/
def Frame.render_widget (f : Frame) (w : Widget) (area : Rect) : Frame :=
  { f with cmds := f.cmds ++ [(w, area)] }

/-- `Frame::set_cursor`: the cursor-placement side effect. -/
def Frame.set_cursor (f : Frame) (x y : Nat) : Frame :=
  { f with cursor := some (x, y) }

/-- Scroll/selection state of a stateful table (`tui::widgets::TableState`),
owned by the application state. -/
structure TableState where
  offset : Nat
  selected : Option Nat
  deriving Repr, DecidableEq

/-- `Frame::render_stateful_widget`: records the draw instruction and hands the
state handle to the toolkit. The toolkit is an out-of-scope collaborator; the
core itself performs no mutation through the handle, so the state is returned
as received. -/
def Frame.render_stateful_widget (f : Frame) (w : Widget) (area : Rect)
    (st : TableState) : Frame × TableState :=
  ({ f with cmds := f.cmds ++ [(w, area)] }, st)

/-- `app/metrics.rs::KubeNodeMetrics` (the two fields this file reads). -/
structure KubeNodeMetrics where
  cpu_percent : ℚ
  mem_percent : ℚ
  deriving Repr, DecidableEq

/-- A namespace entry: name and status strings. -/
structure NamespaceEntry where
  name : String
  status : String
  deriving Repr, DecidableEq

/-- A CLI tool entry: name, version, health flag. -/
structure Cli where
  name : String
  version : String
  status : Bool
  deriving Repr, DecidableEq

/-- The active kube context: name, cluster, user. -/
structure ActiveContext where
  name : String
  cluster : String
  user : String
  deriving Repr, DecidableEq

/-- The namespaces list together with its externally-owned scroll/selection
state (kdash `StatefulTable`). -/
structure StatefulTable where
  items : List NamespaceEntry
  state : TableState
  deriving Repr, DecidableEq

/-- The selection record; this file reads only the selected namespace name. -/
structure Selected where
  ns : Option String
  deriving Repr, DecidableEq

structure AppData where
  filter : String
  clis : List Cli
  active_context : Option ActiveContext
  node_metrics : List KubeNodeMetrics
  namespaces : StatefulTable
  selected : Selected
  deriving Repr, DecidableEq

/-- Modelled from the spec: the active-block marker is "enumerated, at least
variants: Namespaces, Context, Filter, and others outside this core's
concern". -/
inductive ActiveBlock where
  | Namespaces
  | Contexts
  | Filter
  | Other
  deriving Repr, DecidableEq

structure Route where
  active_block : ActiveBlock
  deriving Repr, DecidableEq

structure App where
  show_info_bar : Bool
  show_filter : Bool
  is_loading : Bool
  light_theme : Bool
  enhanced_graphics : Bool
  data : AppData
  route : Route
  deriving Repr, DecidableEq

/-- Modelled from the spec: `App::get_current_route` — the top of the external
navigation stack, collapsed here to its current value. -/
def App.get_current_route (a : App) : Route := a.route

/-- A key binding's display key. -/
structure KeyBinding where
  key : String
  deriving Repr, DecidableEq

/-- Modelled from the spec: the "static key-binding configuration" read for
label text (`app/key_binding.rs::DEFAULT_KEYBINDING`); concrete key strings are
opaque to this core. -/
structure KeyBindings where
  jump_to_filter : KeyBinding
  toggle_filter : KeyBinding
  jump_to_namespace : KeyBinding
  select_all_namespace : KeyBinding
  deriving Repr, DecidableEq

def DEFAULT_KEYBINDING : KeyBindings :=
  { jump_to_filter := { key := "/" }
    toggle_filter := { key := "f" }
    jump_to_namespace := { key := "n" }
    select_all_namespace := { key := "a" } }

/-- Modelled from the spec: `banner.rs::BANNER`, a static multi-line banner. -/
def BANNER : String := " K D A S H "

/-- Modelled from the spec: the crate version string baked in at build time. -/
def CARGO_PKG_VERSION : String := "0.0.0"

/-- `ui/mod.rs::HIGHLIGHT`, the highlight symbol of stateful tables. -/
def HIGHLIGHT : String := "=> "

/-- Modelled from the spec: `ui/utils.rs::loading` — the generic
loading-or-empty placeholder renderer, "invoked with a block, region, loading
flag, theme flag"; the loading flag selects which placeholder variant is
drawn. -/
def loading (f : Frame) (block : BlockW) (area : Rect) (is_loading : Bool)
    (light_theme : Bool) : Frame :=
  f.render_widget (Widget.loadingPlaceholder block is_loading light_theme) area

/-- Height (or width) assigned to one layout constraint given the remaining
space of the region being split. -/
def constraintSize (c : Constraint) (remaining : Nat) : Nat :=
  match c with
  | Constraint.length n => n
  | Constraint.min n => Nat.max n remaining
  | Constraint.percentage p => p * remaining / 100

/-- One stacked region per constraint: fixed-size constraints take their size,
a minimum constraint takes the remaining space with its floor enforced. -/
def chunksGo (x width : Nat) : List Constraint → Nat → Nat → List Rect
  | [], _, _ => []
  | c :: rest, y, remaining =>
    let h := constraintSize c remaining
    { x := x, y := y, width := width, height := h } ::
      chunksGo x width rest (y + h) (remaining - h)

/-- Modelled from the spec: `ui/utils.rs::vertical_chunks` — splits a region
vertically, one sub-region per constraint in order: fixed-height bars take
their height, the minimum-constraint region takes the remaining space with the
minimum floor enforced. -/
def vertical_chunks (constraints : List Constraint) (area : Rect) : List Rect :=
  chunksGo area.x area.width constraints area.y area.height

/-- Modelled from the spec: `ui/utils.rs::vertical_chunks_with_margin` — as
`vertical_chunks` after shrinking the region by the given margin on all
sides. -/
def vertical_chunks_with_margin (constraints : List Constraint) (area : Rect)
    (margin : Nat) : List Rect :=
  chunksGo (area.x + margin) (area.width - 2 * margin) constraints
    (area.y + margin) (area.height - 2 * margin)

/-- Modelled from the spec: `ui/utils.rs::horizontal_chunks` — splits a region
horizontally, one sub-region per constraint in left-to-right order. -/
def horizontal_chunks (constraints : List Constraint) (area : Rect) : List Rect :=
  (chunksGo area.y area.height constraints area.x area.width).map
    (fun r => { x := r.y, y := r.x, width := r.height, height := r.width })

/-- `get_nm_ratio` (src/ui/overview.rs): convert percent values from the node
metrics to the ratio a gauge expects — the mean of the selected field over all
samples divided by 100, and 0 on an empty collection. -/
def get_nm_ratio (node_metrics : List KubeNodeMetrics)
    (f : KubeNodeMetrics → ℚ) : ℚ :=
  if node_metrics.isEmpty = false then
    ((node_metrics.map f).sum / (node_metrics.length : ℚ)) / 100
  else
    0

/-- `nw_loading_indicator` (src/ui/overview.rs). -/
def nw_loading_indicator (loading : Bool) : String :=
  if loading then "..." else ""

/-- Modelled from the spec: `resource_tabs.rs::draw_resource_tabs_block` — the
external resource-tabs renderer, "invoked with the remaining region, opaque to
this core"; per spec §5 the render pass performs no state mutation beyond the
filter cursor placement, so the opaque renderer draws without touching the
state. -/
def draw_resource_tabs_block (app : App) (area : Rect) (f : Frame) :
    Frame × App :=
  (f.render_widget Widget.resourceTabs area, app)

/-- The title of the filter block (`format!(" Filter {} (toggle: {}) ", ...)`). -/
def filterTitle : String :=
  " Filter " ++ DEFAULT_KEYBINDING.jump_to_filter.key ++ " (toggle: " ++
    DEFAULT_KEYBINDING.toggle_filter.key ++ ") "

/-- `draw_filter` (src/ui/overview.rs): bordered filter-text box; when the
Filter block is active, the border switches to the secondary style and the
cursor is placed after the typed text (`u16` arithmetic, hence `% 65536`). -/
def draw_filter (app : App) (area : Rect) (f : Frame) : Frame × App :=
  let block0 := layout_block_default filterTitle
  let bf : BlockW × Frame :=
    if app.get_current_route.active_block = ActiveBlock.Filter then
      (block0.withStyle (style_secondary app.light_theme),
       f.set_cursor ((area.x + 2 + app.data.filter.length % 65536) % 65536)
         ((area.y + 1) % 65536))
    else
      (block0, f)
  let paragraph := Widget.paragraph [[{ content := app.data.filter, style := none }]]
    none (some bf.1)
  (bf.2.render_widget paragraph area, app)

/-- `draw_logo_block` (src/ui/overview.rs): banner text, version, loading
suffix, patched with the logo style, inside a plain bordered block. -/
def draw_logo_block (app : App) (area : Rect) (f : Frame) : Frame × App :=
  let text := BANNER ++ "\n v" ++ CARGO_PKG_VERSION ++ " with ♥ in Rust " ++
    nw_loading_indicator app.is_loading
  let paragraph := Widget.paragraph [[{ content := text, style := none }]]
    (some (style_logo app.light_theme))
    (some { title := none, borders := true, style := none })
  (f.render_widget paragraph area, app)

/-- The per-entry row of the CLI Info table: cells name/version, style chosen
by the per-entry health flag. -/
def cliRow (light : Bool) (s : Cli) : RowW :=
  { cells := [s.name, s.version]
    style := if s.status then style_primary light else style_failure light }

/-- `draw_cli_version_block` (src/ui/overview.rs): a two-column table when the
CLI list is non-empty, otherwise the loading/empty placeholder. -/
def draw_cli_version_block (app : App) (area : Rect) (f : Frame) : Frame × App :=
  let block := layout_block_default " CLI Info "
  if app.data.clis.isEmpty = false then
    let rows := app.data.clis.map (cliRow app.light_theme)
    let table := Widget.table rows none block
      [Constraint.percentage 50, Constraint.percentage 50] false
    (f.render_widget table area, app)
  else
    (loading f block area app.is_loading app.light_theme, app)

/-- The context text: three styled label/value lines when an active context is
present, a single failure-styled message otherwise. -/
def contextText (app : App) : List (List SpanW) :=
  match app.data.active_context with
  | some active_context =>
    [[{ content := "Context: ", style := some (style_default app.light_theme) },
      { content := active_context.name, style := some (style_primary app.light_theme) }],
     [{ content := "Cluster: ", style := some (style_default app.light_theme) },
      { content := active_context.cluster, style := some (style_primary app.light_theme) }],
     [{ content := "User: ", style := some (style_default app.light_theme) },
      { content := active_context.user, style := some (style_primary app.light_theme) }]]
  | none =>
    [[{ content := "Context information not found",
        style := some (style_failure app.light_theme) }]]

/-- Round-half-to-even integer rounding of a rational, the rounding used by
Rust's `format!("\x7b:.0\x7d%", v)` on the value the rational models. -/
def roundHalfEven (q : ℚ) : Int :=
  if q - Int.floor q < 1 / 2 then Int.floor q
  else if 1 / 2 < q - Int.floor q then Int.floor q + 1
  else if Int.floor q % 2 = 0 then Int.floor q else Int.floor q + 1

/-- `draw_context_info_block` (src/ui/overview.rs): context info lines plus the
CPU and Memory line gauges. Each gauge feeds the aggregated ratio limited above
at 1 to the widget and labels it with the unclamped percentage. -/
def draw_context_info_block (app : App) (area : Rect) (f : Frame) : Frame × App :=
  let chunks := vertical_chunks_with_margin
    [Constraint.length 3, Constraint.min 2, Constraint.min 2] area 1
  let block := layout_block_default " Context Info (toggle <i>) "
  let f := f.render_widget (Widget.block block) area
  let text := contextText app
  let f := f.render_widget (Widget.paragraph text none
    (some { title := none, borders := false, style := none })) (chunks.getD 0 default)
  let ratio := get_nm_ratio app.data.node_metrics (fun nm => nm.cpu_percent)
  let limited_ratio := if 1 < ratio then 1 else ratio
  let cpu_gauge := Widget.lineGauge "CPU:" (style_primary app.light_theme)
    (get_gauge_style app.enhanced_graphics) limited_ratio
    (roundHalfEven (ratio * 100))
  let f := f.render_widget cpu_gauge (chunks.getD 1 default)
  let ratio := get_nm_ratio app.data.node_metrics (fun nm => nm.mem_percent)
  let limited_ratio := if 1 < ratio then 1 else ratio
  let mem_gauge := Widget.lineGauge "Memory:" (style_primary app.light_theme)
    (get_gauge_style app.enhanced_graphics) limited_ratio
    (roundHalfEven (ratio * 100))
  (f.render_widget mem_gauge (chunks.getD 2 default), app)

/-- The title of the namespaces block. -/
def namespacesTitle : String :=
  " Namespaces " ++ DEFAULT_KEYBINDING.jump_to_namespace.key ++ " (all: " ++
    DEFAULT_KEYBINDING.select_all_namespace.key ++ ") "

/-- The per-entry row of the Namespaces table: cells name/status, secondary
style when the entry's name equals the selected namespace name, primary style
otherwise. -/
def nsRow (light : Bool) (selected_ns : Option String) (s : NamespaceEntry) : RowW :=
  { cells := [s.name, s.status]
    style := if some s.name = selected_ns then style_secondary light
      else style_primary light }

/-- `draw_namespaces_block` (src/ui/overview.rs): a stateful two-column table
when the namespace list is non-empty, otherwise the loading/empty placeholder;
the block border switches to the secondary style when the Namespaces block is
active. -/
def draw_namespaces_block (app : App) (area : Rect) (f : Frame) : Frame × App :=
  let block0 := layout_block_default namespacesTitle
  let block :=
    if app.get_current_route.active_block = ActiveBlock.Namespaces then
      block0.withStyle (style_secondary app.light_theme)
    else block0
  if app.data.namespaces.items.isEmpty = false then
    let rows := app.data.namespaces.items.map
      (nsRow app.light_theme app.data.selected.ns)
    let table := Widget.table rows
      (some (table_header_style ["Name", "Status"] app.light_theme)) block
      [Constraint.length 22, Constraint.length 6] true
    let fs := f.render_stateful_widget table area app.data.namespaces.state
    (fs.1, { app with data := { app.data with
      namespaces := { app.data.namespaces with state := fs.2 } } })
  else
    (loading f block area app.is_loading app.light_theme, app)

/-- `draw_status_block` (src/ui/overview.rs): subdivides the status bar into
four sub-regions and delegates to the four status-panel renderers. -/
def draw_status_block (app : App) (area : Rect) (f : Frame) : Frame × App :=
  let chunks := horizontal_chunks
    [Constraint.length 35, Constraint.min 10, Constraint.length 30,
     Constraint.length 32] area
  let fa := draw_namespaces_block app (chunks.getD 0 default) f
  let fa := draw_context_info_block fa.2 (chunks.getD 1 default) fa.1
  let fa := draw_cli_version_block fa.2 (chunks.getD 2 default) fa.1
  draw_logo_block fa.2 (chunks.getD 3 default) fa.1

/-- The constraint list built by `draw_overview`: status bar (height 9) when
`show_info_bar`, filter bar (height 3) when `show_filter`, then the
resource-tab region (minimum height 10). -/
def overviewConstraints (app : App) : List Constraint :=
  (if app.show_info_bar then [Constraint.length 9] else []) ++
    (if app.show_filter then [Constraint.length 3] else []) ++
    [Constraint.min 10]

/-- The sequence of chunk indices `draw_overview` dispatches on, mirroring its
`chunks_index` walk: the status block, then the filter, then the resource
tabs. -/
def overviewDispatchIndices (app : App) : List Nat :=
  let i0 : Nat := 0
  let li1 : List Nat × Nat :=
    if app.show_info_bar then ([i0], i0 + 1) else ([], i0)
  let li2 : List Nat × Nat :=
    if app.show_filter then (li1.1 ++ [li1.2], li1.2 + 1) else li1
  li2.1 ++ [li2.2]

/-- `draw_overview` (src/ui/overview.rs): computes the vertical layout from the
two toggles and dispatches each region in order to the status block, the
filter, and the resource tabs. -/
def draw_overview (app : App) (area : Rect) (f : Frame) : Frame × App :=
  let chunks := vertical_chunks (overviewConstraints app) area
  let chunks_index : Nat := 0
  let fai : Frame × App × Nat :=
    if app.show_info_bar then
      let fa := draw_status_block app (chunks.getD chunks_index default) f
      (fa.1, fa.2, chunks_index + 1)
    else (f, app, chunks_index)
  let fai2 : Frame × App × Nat :=
    if fai.2.1.show_filter then
      let fa := draw_filter fai.2.1 (chunks.getD fai.2.2 default) fai.1
      (fa.1, fa.2, fai.2.2 + 1)
    else fai
  draw_resource_tabs_block fai2.2.1 (chunks.getD fai2.2.2 default) fai2.1

/-! ### Projections over emitted frames -/

/-- The line gauges a frame contains, in draw order: title, fed ratio, label. -/
def gaugeCmds (f : Frame) : List (String × ℚ × Int) :=
  f.cmds.filterMap (fun c =>
    match c.1 with
    | Widget.lineGauge t _ _ r l => some (t, r, l)
    | _ => none)

/-- The data tables a frame contains, in draw order, as their row lists. -/
def tableCmds (f : Frame) : List (List RowW) :=
  f.cmds.filterMap (fun c =>
    match c.1 with
    | Widget.table rows _ _ _ _ => some rows
    | _ => none)

/-- The loading/empty placeholders a frame contains, as their (loading flag,
theme flag) pairs. -/
def placeholderCmds (f : Frame) : List (Bool × Bool) :=
  f.cmds.filterMap (fun c =>
    match c.1 with
    | Widget.loadingPlaceholder _ isLoading light => some (isLoading, light)
    | _ => none)

/-- The per-row style assignments of the data tables a frame contains. -/
def tableRowStyles (f : Frame) : List (List Style) :=
  (tableCmds f).map (fun rows => rows.map RowW.style)

/-! ### C3, C4 — the Ratio Aggregator -/

/-- C3: for every non-empty metric-sample collection and every field selector,
`get_nm_ratio` returns the arithmetic mean of the selected field across all
samples divided by 100. -/
theorem get_nm_ratio_is_mean_div_100 (node_metrics : List KubeNodeMetrics)
    (sel : KubeNodeMetrics → ℚ) (h : node_metrics ≠ []) :
    get_nm_ratio node_metrics sel
      = ((node_metrics.map sel).sum / (node_metrics.length : ℚ)) / 100 := by
  simp [get_nm_ratio, h]

/-- Witness for C3: field values `[80, 60]` give ratio `0.7`, and a singleton
`[42]` gives exactly `42/100`. -/
theorem get_nm_ratio_is_mean_div_100_witness :
    ([⟨80, 0⟩, ⟨60, 0⟩] : List KubeNodeMetrics) ≠ []
      ∧ get_nm_ratio [⟨80, 0⟩, ⟨60, 0⟩] (fun nm => nm.cpu_percent) = 7 / 10
      ∧ ([⟨42, 0⟩] : List KubeNodeMetrics) ≠ []
      ∧ get_nm_ratio [⟨42, 0⟩] (fun nm => nm.cpu_percent) = 42 / 100 := by
  refine ⟨by decide, ?_, by decide, ?_⟩
  · rw [get_nm_ratio_is_mean_div_100 _ _ (by decide)]
    norm_num
  · rw [get_nm_ratio_is_mean_div_100 _ _ (by decide)]
    norm_num

/-- C4: aggregating over the empty sample collection returns exactly `0` for
every field selector; the function is total, so no error or fault occurs. -/
theorem get_nm_ratio_nil (sel : KubeNodeMetrics → ℚ) :
    get_nm_ratio [] sel = 0 := rfl

/-! ### C6, C10 — the Overview layout -/

theorem chunksGo_length (x width : Nat) (cs : List Constraint) (y remaining : Nat) :
    (chunksGo x width cs y remaining).length = cs.length := by
  induction cs generalizing y remaining with
  | nil => rfl
  | cons c rest ih => simp [chunksGo, ih]

theorem vertical_chunks_length (cs : List Constraint) (area : Rect) :
    (vertical_chunks cs area).length = cs.length :=
  chunksGo_length area.x area.width cs area.y area.height

theorem chunksGo_last_min (x width n : Nat) (cs : List Constraint) :
    ∀ y remaining, ∃ r,
      (chunksGo x width (cs ++ [Constraint.min n]) y remaining).getLast? = some r
        ∧ n ≤ r.height := by
  induction cs with
  | nil =>
    intro y remaining
    exact ⟨_, rfl, Nat.le_max_left n remaining⟩
  | cons c rest ih =>
    intro y remaining
    obtain ⟨r, hr, hn⟩ := ih (y + constraintSize c remaining)
      (remaining - constraintSize c remaining)
    refine ⟨r, ?_, hn⟩
    simp only [List.cons_append, chunksGo]
    cases htail : chunksGo x width (rest ++ [Constraint.min n])
        (y + constraintSize c remaining) (remaining - constraintSize c remaining) with
    | nil =>
      have hl := chunksGo_length x width (rest ++ [Constraint.min n])
        (y + constraintSize c remaining) (remaining - constraintSize c remaining)
      rw [htail] at hl
      simp at hl
    | cons t ts =>
      rw [htail] at hr
      rw [List.getLast?_cons_cons]
      exact hr

/-- C6: for all four toggle combinations, the vertical region list has exactly
`1 + (show_info_bar?1:0) + (show_filter?1:0)` regions, the constraints are in
the fixed order status bar (only if `show_info_bar`), filter bar (only if
`show_filter`), then the single trailing resource-tab constraint, and the
trailing region always has at least the minimum height 10. -/
theorem overview_layout_partition (app : App) (area : Rect) :
    (vertical_chunks (overviewConstraints app) area).length
        = 1 + (if app.show_info_bar then 1 else 0)
            + (if app.show_filter then 1 else 0)
      ∧ overviewConstraints app
        = (if app.show_info_bar then [Constraint.length 9] else []) ++
            (if app.show_filter then [Constraint.length 3] else []) ++
            [Constraint.min 10]
      ∧ ∃ r, (vertical_chunks (overviewConstraints app) area).getLast? = some r
          ∧ 10 ≤ r.height := by
  refine ⟨?_, rfl, ?_⟩
  · rw [vertical_chunks_length]
    cases hi : app.show_info_bar <;> cases hf : app.show_filter <;>
      simp [overviewConstraints, hi, hf]
  · obtain ⟨r, hr, hn⟩ := chunksGo_last_min area.x area.width 10
      ((if app.show_info_bar then [Constraint.length 9] else []) ++
        (if app.show_filter then [Constraint.length 3] else []))
      area.y area.height
    refine ⟨r, ?_, hn⟩
    simp only [vertical_chunks, overviewConstraints]
    exact hr

/-- C10: every chunk index used by `draw_overview` when dispatching to the
status, filter, and resource-tab renderers is strictly below the number of
regions produced from its constraint list, for all four toggle combinations. -/
theorem overview_dispatch_in_bounds (app : App) (area : Rect) (i : Nat)
    (h : i ∈ overviewDispatchIndices app) :
    i < (vertical_chunks (overviewConstraints app) area).length := by
  rw [vertical_chunks_length]
  cases hi : app.show_info_bar <;> cases hf : app.show_filter <;>
    · simp only [overviewDispatchIndices, overviewConstraints, hi, hf] at h ⊢
      simp at h ⊢
      omega

/-- A concrete application state used to instantiate witnesses. -/
def sampleApp : App :=
  { show_info_bar := false
    show_filter := false
    is_loading := false
    light_theme := false
    enhanced_graphics := false
    data :=
      { filter := ""
        clis := []
        active_context := none
        node_metrics := []
        namespaces := { items := [], state := { offset := 0, selected := none } }
        selected := { ns := none } }
    route := { active_block := ActiveBlock.Other } }

/-- A concrete screen region used to instantiate witnesses. -/
def sampleRect : Rect := { x := 0, y := 0, width := 80, height := 24 }

/-- Witness for C10: index 0 is dispatched on and is in bounds. -/
theorem overview_dispatch_in_bounds_witness :
    0 ∈ overviewDispatchIndices sampleApp
      ∧ 0 < (vertical_chunks (overviewConstraints sampleApp) sampleRect).length :=
  ⟨by decide, overview_dispatch_in_bounds sampleApp sampleRect 0 (by decide)⟩

/-! ### C7, C9 — Namespaces row highlighting -/

/-- C7: the Namespaces table renders one row per entry via `nsRow`, and a row
carries the selected (secondary) style iff its name equals the
currently-selected namespace name; every other row carries the primary data
style. -/
theorem namespaces_row_highlight (app : App) (area : Rect) (s : NamespaceEntry)
    (hs : s ∈ app.data.namespaces.items) :
    tableCmds (draw_namespaces_block app area Frame.empty).1
        = [app.data.namespaces.items.map (nsRow app.light_theme app.data.selected.ns)]
      ∧ ((nsRow app.light_theme app.data.selected.ns s).style
            = style_secondary app.light_theme
          ↔ app.data.selected.ns = some s.name)
      ∧ (app.data.selected.ns ≠ some s.name →
          (nsRow app.light_theme app.data.selected.ns s).style
            = style_primary app.light_theme) := by
  have hne : app.data.namespaces.items ≠ [] := by
    intro h
    rw [h] at hs
    exact (List.not_mem_nil s) hs
  refine ⟨?_, ?_, ?_⟩
  · simp [draw_namespaces_block, hne, tableCmds, Frame.render_stateful_widget,
      Frame.empty]
  · constructor
    · intro h
      by_contra hneq
      rw [nsRow] at h
      simp only [style_secondary, style_primary] at h
      rw [if_neg (fun heq => hneq heq.symm)] at h
      exact Style.noConfusion h
    · intro h
      simp [nsRow, h, style_secondary]
  · intro h
    simp only [nsRow, style_primary]
    rw [if_neg (fun heq => h heq.symm)]

/-- A concrete application state with one namespace entry that is currently
selected. -/
def nsSampleApp : App :=
  { sampleApp with
    data := { sampleApp.data with
      namespaces :=
        { items := [{ name := "default", status := "Active" }]
          state := { offset := 0, selected := none } }
      selected := { ns := some "default" } } }

/-- Witness for C7 on a selected singleton list. -/
theorem namespaces_row_highlight_witness :
    ({ name := "default", status := "Active" } : NamespaceEntry)
        ∈ nsSampleApp.data.namespaces.items
      ∧ (tableCmds (draw_namespaces_block nsSampleApp sampleRect Frame.empty).1
            = [nsSampleApp.data.namespaces.items.map
                (nsRow nsSampleApp.light_theme nsSampleApp.data.selected.ns)]
          ∧ ((nsRow nsSampleApp.light_theme nsSampleApp.data.selected.ns
                  { name := "default", status := "Active" }).style
                = style_secondary nsSampleApp.light_theme
              ↔ nsSampleApp.data.selected.ns = some "default")
          ∧ (nsSampleApp.data.selected.ns ≠ some "default" →
              (nsRow nsSampleApp.light_theme nsSampleApp.data.selected.ns
                  { name := "default", status := "Active" }).style
                = style_primary nsSampleApp.light_theme)) :=
  ⟨by decide, namespaces_row_highlight nsSampleApp sampleRect _ (by decide)⟩

/-- The same state under the light theme. -/
def nsLightApp : App := { nsSampleApp with light_theme := true }

/-- C9 as stated is refuted: two invocations with equal namespace lists and
equal selected names but different theme flags yield different per-row style
values, because the style selectors take the theme flag at the call sites. -/
theorem namespaces_styles_theme_counterexample :
    (nsSampleApp.data.namespaces.items = nsLightApp.data.namespaces.items
        ∧ nsSampleApp.data.selected.ns = nsLightApp.data.selected.ns)
      ∧ tableRowStyles (draw_namespaces_block nsSampleApp sampleRect Frame.empty).1
          ≠ tableRowStyles (draw_namespaces_block nsLightApp sampleRect Frame.empty).1 := by
  refine ⟨⟨rfl, rfl⟩, ?_⟩
  decide

/-- C9 amended: with equal namespace lists, equal selected names and equal
theme flags, any two invocations of the Namespaces renderer produce identical
per-row style assignments. -/
theorem namespaces_styles_deterministic (a1 a2 : App) (area1 area2 : Rect)
    (h1 : a1.data.namespaces.items = a2.data.namespaces.items)
    (h2 : a1.data.selected.ns = a2.data.selected.ns)
    (h3 : a1.light_theme = a2.light_theme) :
    tableRowStyles (draw_namespaces_block a1 area1 Frame.empty).1
      = tableRowStyles (draw_namespaces_block a2 area2 Frame.empty).1 := by
  by_cases hne : a1.data.namespaces.items = []
  · have hne2 : a2.data.namespaces.items = [] := h1 ▸ hne
    simp [draw_namespaces_block, hne, hne2, loading, tableRowStyles, tableCmds,
      Frame.empty, Frame.render_widget]
  · have hne2 : a2.data.namespaces.items ≠ [] := h1 ▸ hne
    simp [draw_namespaces_block, hne, hne2, tableRowStyles, tableCmds,
      Frame.empty, Frame.render_stateful_widget, h1, h2, h3]

/-- A state agreeing with `nsSampleApp` on list, selection and theme but
differing elsewhere. -/
def nsOtherApp : App :=
  { nsSampleApp with
    is_loading := true
    route := { active_block := ActiveBlock.Namespaces } }

/-- Witness for the amended C9 across two states that differ in loading flag
and focus but agree on list, selection and theme. -/
theorem namespaces_styles_deterministic_witness :
    (nsSampleApp.data.namespaces.items = nsOtherApp.data.namespaces.items
        ∧ nsSampleApp.data.selected.ns = nsOtherApp.data.selected.ns
        ∧ nsSampleApp.light_theme = nsOtherApp.light_theme)
      ∧ tableRowStyles (draw_namespaces_block nsSampleApp sampleRect Frame.empty).1
          = tableRowStyles (draw_namespaces_block nsOtherApp
              { x := 1, y := 1, width := 40, height := 12 } Frame.empty).1 :=
  ⟨⟨rfl, rfl, rfl⟩,
    namespaces_styles_deterministic nsSampleApp nsOtherApp sampleRect
      { x := 1, y := 1, width := 40, height := 12 } rfl rfl rfl⟩

/-! ### C5 — placeholder exclusivity of the list-backed panels -/

/-- C5: each list-backed panel (CLI Versions, Namespaces) emits exactly one of
{data table, loading placeholder} per frame — never both, never neither — the
choice being a function solely of list emptiness; the loading flag only fixes
the recorded placeholder variant. -/
theorem panel_placeholder_exclusivity (app : App) (area : Rect) :
    ((tableCmds (draw_cli_version_block app area Frame.empty).1).length
          + (placeholderCmds (draw_cli_version_block app area Frame.empty).1).length
          = 1
      ∧ ((tableCmds (draw_cli_version_block app area Frame.empty).1).length = 1
          ↔ app.data.clis ≠ [])
      ∧ placeholderCmds (draw_cli_version_block app area Frame.empty).1
          = if app.data.clis = [] then [(app.is_loading, app.light_theme)] else [])
    ∧ ((tableCmds (draw_namespaces_block app area Frame.empty).1).length
          + (placeholderCmds (draw_namespaces_block app area Frame.empty).1).length
          = 1
      ∧ ((tableCmds (draw_namespaces_block app area Frame.empty).1).length = 1
          ↔ app.data.namespaces.items ≠ [])
      ∧ placeholderCmds (draw_namespaces_block app area Frame.empty).1
          = if app.data.namespaces.items = []
            then [(app.is_loading, app.light_theme)] else []) := by
  constructor
  · by_cases hc : app.data.clis = [] <;>
      simp [draw_cli_version_block, hc, loading, tableCmds, placeholderCmds,
        Frame.empty, Frame.render_widget]
  · by_cases hn : app.data.namespaces.items = [] <;>
      simp [draw_namespaces_block, hn, loading, tableCmds, placeholderCmds,
        Frame.empty, Frame.render_widget, Frame.render_stateful_widget]

/-! ### C8 — the Filter panel -/

/-- C8: when the active block is the Filter variant, `draw_filter` switches the
paragraph border to the active (secondary) style and places the cursor at
horizontal offset `2 + filter-length` and vertical offset `1` from the region's
top-left corner; for any other active block the cursor is left untouched and
the border keeps the default style. -/
theorem draw_filter_cursor (app : App) (area : Rect) (f : Frame)
    (hx : area.x + 2 + app.data.filter.length < 65536)
    (hy : area.y + 1 < 65536) :
    (app.get_current_route.active_block = ActiveBlock.Filter →
        (draw_filter app area f).1.cursor
            = some (area.x + 2 + app.data.filter.length, area.y + 1)
          ∧ (draw_filter app area f).1.cmds
            = f.cmds ++ [(Widget.paragraph
                [[{ content := app.data.filter, style := none }]] none
                (some ((layout_block_default filterTitle).withStyle
                  (style_secondary app.light_theme))), area)])
      ∧ (app.get_current_route.active_block ≠ ActiveBlock.Filter →
          (draw_filter app area f).1.cursor = f.cursor
            ∧ (draw_filter app area f).1.cmds
              = f.cmds ++ [(Widget.paragraph
                  [[{ content := app.data.filter, style := none }]] none
                  (some (layout_block_default filterTitle)), area)]) := by
  constructor
  · intro h
    have hmod : (area.x + 2 + app.data.filter.length % 65536) % 65536
        = area.x + 2 + app.data.filter.length := by omega
    have hmody : (area.y + 1) % 65536 = area.y + 1 := Nat.mod_eq_of_lt hy
    simp [draw_filter, h, Frame.set_cursor, Frame.render_widget, hmod, hmody]
  · intro h
    simp [draw_filter, h, Frame.render_widget]

/-- A state whose filter text is "abc" and whose Filter block is active. -/
def filterApp : App :=
  { sampleApp with
    data := { sampleApp.data with filter := "abc" }
    route := { active_block := ActiveBlock.Filter } }

/-- Witness for C8: with filter text "abc" and the Filter block active, the
cursor lands at `(0 + 2 + 3, 0 + 1)`. -/
theorem draw_filter_cursor_witness :
    sampleRect.x + 2 + filterApp.data.filter.length < 65536
      ∧ sampleRect.y + 1 < 65536
      ∧ ((filterApp.get_current_route.active_block = ActiveBlock.Filter →
            (draw_filter filterApp sampleRect Frame.empty).1.cursor
                = some (sampleRect.x + 2 + filterApp.data.filter.length,
                    sampleRect.y + 1)
              ∧ (draw_filter filterApp sampleRect Frame.empty).1.cmds
                = Frame.empty.cmds ++ [(Widget.paragraph
                    [[{ content := filterApp.data.filter, style := none }]] none
                    (some ((layout_block_default filterTitle).withStyle
                      (style_secondary filterApp.light_theme))), sampleRect)])
          ∧ (filterApp.get_current_route.active_block ≠ ActiveBlock.Filter →
              (draw_filter filterApp sampleRect Frame.empty).1.cursor
                  = Frame.empty.cursor
                ∧ (draw_filter filterApp sampleRect Frame.empty).1.cmds
                  = Frame.empty.cmds ++ [(Widget.paragraph
                      [[{ content := filterApp.data.filter, style := none }]] none
                      (some (layout_block_default filterTitle)), sampleRect)])) :=
  ⟨by decide, by decide,
    draw_filter_cursor filterApp sampleRect Frame.empty (by decide) (by decide)⟩

/-! ### C2 — the render pass mutates no application state -/

theorem draw_filter_state (app : App) (area : Rect) (f : Frame) :
    (draw_filter app area f).2 = app := by
  simp [draw_filter]

theorem draw_filter_cursor_inactive (app : App) (area : Rect) (f : Frame)
    (h : app.get_current_route.active_block ≠ ActiveBlock.Filter) :
    (draw_filter app area f).1.cursor = f.cursor := by
  simp [draw_filter, h, Frame.render_widget]

theorem draw_logo_block_state (app : App) (area : Rect) (f : Frame) :
    (draw_logo_block app area f).2 = app
      ∧ (draw_logo_block app area f).1.cursor = f.cursor := by
  simp [draw_logo_block, Frame.render_widget]

theorem draw_cli_version_block_state (app : App) (area : Rect) (f : Frame) :
    (draw_cli_version_block app area f).2 = app
      ∧ (draw_cli_version_block app area f).1.cursor = f.cursor := by
  by_cases hc : app.data.clis = [] <;>
    simp [draw_cli_version_block, hc, loading, Frame.render_widget]

theorem draw_context_info_block_state (app : App) (area : Rect) (f : Frame) :
    (draw_context_info_block app area f).2 = app
      ∧ (draw_context_info_block app area f).1.cursor = f.cursor := by
  simp [draw_context_info_block, Frame.render_widget]

theorem draw_namespaces_block_state (app : App) (area : Rect) (f : Frame) :
    (draw_namespaces_block app area f).2 = app
      ∧ (draw_namespaces_block app area f).1.cursor = f.cursor := by
  by_cases hn : app.data.namespaces.items = [] <;>
    simp [draw_namespaces_block, hn, loading, Frame.render_widget,
      Frame.render_stateful_widget]

theorem draw_status_block_state (app : App) (area : Rect) (f : Frame) :
    (draw_status_block app area f).2 = app
      ∧ (draw_status_block app area f).1.cursor = f.cursor := by
  simp only [draw_status_block]
  obtain ⟨h1, h1c⟩ := draw_namespaces_block_state app _ f
  obtain ⟨h2, h2c⟩ := draw_context_info_block_state
    (draw_namespaces_block app _ f).2 _ (draw_namespaces_block app _ f).1
  obtain ⟨h3, h3c⟩ := draw_cli_version_block_state _ _ _
  obtain ⟨h4, h4c⟩ := draw_logo_block_state _ _ _
  constructor
  · rw [h4, h3, h2, h1]
  · rw [h4c, h3c, h2c, h1c]

/-- C2: a full render pass returns the application state unchanged in every
field, and the cursor of the surface is touched only when the filter bar is
shown and the Filter block is active — the Filter panel's single side
effect. -/
theorem draw_overview_pure (app : App) (area : Rect) (f : Frame) :
    (draw_overview app area f).2 = app
      ∧ ((app.show_filter = true
            ∧ app.get_current_route.active_block = ActiveBlock.Filter)
          ∨ (draw_overview app area f).1.cursor = f.cursor) := by
  simp only [draw_overview, draw_resource_tabs_block]
  by_cases hact : app.get_current_route.active_block = ActiveBlock.Filter
  · cases hi : app.show_info_bar <;> cases hf : app.show_filter <;>
      · obtain ⟨hs, hsc⟩ := draw_status_block_state app
          ((vertical_chunks (overviewConstraints app) area).getD 0 default) f
        simp_all [Frame.render_widget, draw_filter_state, hs, hsc,
          draw_filter_cursor_inactive]
  · cases hi : app.show_info_bar <;> cases hf : app.show_filter <;>
      · obtain ⟨hs, hsc⟩ := draw_status_block_state app
          ((vertical_chunks (overviewConstraints app) area).getD 0 default) f
        simp_all [Frame.render_widget, draw_filter_state, hs, hsc,
          draw_filter_cursor_inactive]

/-! ### C1 — gauge clamping and labels -/

/-- The transformation the claim asserts, following its words: the aggregated
ratio clamped to the interval `[0, 1]`. -/
def clamp01_claim (q : ℚ) : ℚ := max 0 (min 1 q)

/-- A state whose single metric sample has a negative CPU field value. -/
def negMetricsApp : App :=
  { sampleApp with
    data := { sampleApp.data with
      node_metrics := [{ cpu_percent := -50, mem_percent := 0 }] } }

/-- C1 counterexample: with one sample whose CPU field is `-50`, the aggregated
ratio is `-1/2` and the gauge is fed `-1/2` — not the claim's clamped value
`0`. The code limits only ratios above 1 and passes ratios below 0 through. -/
theorem gauge_clamp_counterexample :
    gaugeCmds (draw_context_info_block negMetricsApp sampleRect Frame.empty).1
        = [("CPU:", -1/2, -50), ("Memory:", 0, 0)]
      ∧ clamp01_claim (get_nm_ratio negMetricsApp.data.node_metrics
          (fun nm => nm.cpu_percent)) = 0
      ∧ (-1/2 : ℚ) ≠ 0 := by
  have hcpu : get_nm_ratio negMetricsApp.data.node_metrics
      (fun nm => nm.cpu_percent) = -1/2 := by
    norm_num [get_nm_ratio, negMetricsApp, sampleApp]
  have hmem : get_nm_ratio negMetricsApp.data.node_metrics
      (fun nm => nm.mem_percent) = 0 := by
    norm_num [get_nm_ratio, negMetricsApp, sampleApp]
  have hr1 : roundHalfEven ((-1/2 : ℚ) * 100) = -50 := by
    norm_num [roundHalfEven]
  have hr2 : roundHalfEven (0 : ℚ) = 0 := by
    norm_num [roundHalfEven]
  refine ⟨?_, ?_, by norm_num⟩
  · have hlt : ¬ (1 : ℚ) < -1/2 := by norm_num
    have hlt2 : ¬ (1 : ℚ) < 0 := by norm_num
    simp [draw_context_info_block, gaugeCmds, Frame.render_widget, Frame.empty,
      hcpu, hmem, hr1, hr2, hlt, hlt2]
  · rw [hcpu]
    norm_num [clamp01_claim]

/-- C1 amended: for every state and region, the Context+Gauges panel emits
exactly the CPU and Memory gauges, feeding each the aggregated ratio limited
above at 1 — ratios above 1 become exactly 1, ratios at or below 1 (including
negative ones) pass unchanged — so the fill is capped at 1, while the label is
the unclamped ratio × 100, integer-rounded. -/
theorem gauge_ratio_and_label (app : App) (area : Rect) :
    gaugeCmds (draw_context_info_block app area Frame.empty).1
        = [("CPU:",
            (if 1 < get_nm_ratio app.data.node_metrics (fun nm => nm.cpu_percent)
              then 1
              else get_nm_ratio app.data.node_metrics (fun nm => nm.cpu_percent)),
            roundHalfEven (get_nm_ratio app.data.node_metrics
              (fun nm => nm.cpu_percent) * 100)),
           ("Memory:",
            (if 1 < get_nm_ratio app.data.node_metrics (fun nm => nm.mem_percent)
              then 1
              else get_nm_ratio app.data.node_metrics (fun nm => nm.mem_percent)),
            roundHalfEven (get_nm_ratio app.data.node_metrics
              (fun nm => nm.mem_percent) * 100))]
      ∧ (if 1 < get_nm_ratio app.data.node_metrics (fun nm => nm.cpu_percent)
          then (1 : ℚ)
          else get_nm_ratio app.data.node_metrics (fun nm => nm.cpu_percent)) ≤ 1
      ∧ (if 1 < get_nm_ratio app.data.node_metrics (fun nm => nm.mem_percent)
          then (1 : ℚ)
          else get_nm_ratio app.data.node_metrics (fun nm => nm.mem_percent)) ≤ 1 := by
  refine ⟨?_, ?_, ?_⟩
  · simp [draw_context_info_block, gaugeCmds, Frame.render_widget, Frame.empty]
  · split
    · exact le_refl 1
    · exact le_of_not_lt (by assumption)
  · split
    · exact le_refl 1
    · exact le_of_not_lt (by assumption)

end KDash
